import Mathlib

/-!
Shallow embedding of `src/jsonToBatchUpdateRequest.ts` from the
eduhelp-reports repository: a compiler from a Google-Docs document JSON
value to an ordered list of batchUpdate requests.

Modelling conventions:
* JSON objects with optional fields become structures with `Option` fields;
  an optional-chaining read (`a?.b?.c`) collapses to a single `Option`.
* A section style (`docs_v1.Schema$SectionStyle`) is modelled as an ordered
  association list of present keys (JavaScript objects keep insertion order
  and have unique keys); `delete obj.k` is removal of the key, and a read of
  a deleted key yields `none` (JavaScript `undefined`).
* JavaScript mutation is made explicit by state passing: `handleSectionBreak`
  mutates the section style object it was handed (it aliases the element's
  own `sectionStyle`), so it returns the post-mutation style, and the
  traversal threads the mutated element list; the top-level function returns
  the post-call state of the caller's document next to its result.
* The `try`/`catch` fault boundary becomes `Except` for the guarded body and
  an outer wrapper returning `Option` plus the number of `console.error`
  calls (every fault the model can raise is an `Error`, so each caught fault
  is logged exactly once).
* The paragraph handler, table handler, page-style emitters and the
  field-mask deriver live in files of the repository that are not part of
  `src/`; they are modelled from the spec (see the individual doc comments)
  and, where they are genuinely external collaborators, taken as parameters.
-/

/-- Numeric magnitudes occurring in the document JSON (page sizes, margins,
font sizes, line spacing). The source only moves them around, so any field
with decidable equality would do; rationals represent the decimal literals
exactly. -/
abbrev Magnitude := ℚ

/-- Range address of a style-update request: the JSON object
`startIndex / endIndex / segmentId`. `endIndex` is kept optional because the
source passes the element's possibly-absent `endIndex` straight through. -/
structure GRange where
  startIndex : Nat
  endIndex : Option Nat
  segmentId : String
  deriving DecidableEq, Repr

/-- Address of an `insertSectionBreak` request: either an absolute
`location` with segment and index, or `endOfSegmentLocation`. -/
inductive SBLocation where
  | location (segmentId : String) (index : Nat)
  | endOfSegment (segmentId : String)
  deriving DecidableEq, Repr

/-- A section style object: an ordered association list of its present
top-level keys. Only the `sectionType` key is ever inspected by the core, so
values are kept as strings. -/
abbrev SectionStyle := List (String × String)

/-- JavaScript `delete style.key`: removal of a key from the object. -/
def deleteField (key : String) (style : SectionStyle) : SectionStyle :=
  style.filter (fun kv => kv.1 != key)

/-- Read of `style.key`: `none` models JavaScript `undefined` (key absent,
e.g. after `delete`). -/
def getField (style : SectionStyle) (key : String) : Option String :=
  (style.find? (fun kv => kv.1 == key)).map Prod.snd

/-- Modelled from the spec: `getStylingFieldMask` (imported from
`batchUpdateHelpers`, which is not under `src/`). Spec 4.4: it enumerates
exactly the top-level keys present on the partial style object, in the
object's own key order, and joins them with commas. -/
def getStylingFieldMask (style : SectionStyle) : String :=
  String.intercalate "," (style.map Prod.fst)

/-- One batchUpdate request. The first two constructors are the request
shapes the core itself builds for the newline-shrink workaround; the
`changePage…` constructors are the fixed-shape outputs of the page-style
emitters (modelled from the spec, 4.1: each emitter is a pure function
producing exactly one command from its attributes); `insertSectionBreak` and
`updateSectionStyle` are built by `handleSectionBreak`; `other` stands for
any request produced by the external paragraph/table handlers. -/
inductive GRequest where
  | updateTextStyle (fontSizeMagnitude : Magnitude) (fontSizeUnit : String)
      (fields : String) (range : GRange)
  | updateParagraphStyle (lineSpacing spaceAbove spaceBelow : Magnitude)
      (fields : String) (range : GRange)
  | changePageSize (height width : Option Magnitude)
  | changePageOrientation (flip : Option Bool)
  | changePageMargins (marginTop marginBottom marginRight marginLeft : Option Magnitude)
  | insertSectionBreak (sectionType : Option String) (location : SBLocation)
  | updateSectionStyle (sectionStyle : SectionStyle) (range : GRange) (fields : String)
  | other (payload : String)
  deriving DecidableEq, Repr

/-- Document-wide style, with each optional-chain read
(`docStyle?.pageSize?.width?.magnitude`, `docStyle?.marginTop?.magnitude`,
`docStyle?.flipPageOrientation`) collapsed to one optional field. -/
structure DocStyle where
  pageWidth : Option Magnitude
  pageHeight : Option Magnitude
  marginTop : Option Magnitude
  marginBottom : Option Magnitude
  marginRight : Option Magnitude
  marginLeft : Option Magnitude
  flipPageOrientation : Option Bool
  deriving DecidableEq, Repr

/-- The variant payload of a structural element. The core never inspects a
paragraph or table payload (it only forwards it to the external handler), so
those payloads are opaque strings; a section break carries its
`sectionStyle` object; `unknown` covers every other variant, which
`findStructuralElementType` (from `batchUpdateHelpers`, not under `src/`;
modelled from the spec, 4.2 step 1: classify by variant) does not classify
as `paragraph`, `sectionBreak` or `table`, so the `switch` falls through. -/
inductive SEBody where
  | paragraph (payload : String)
  | sectionBreak (sectionStyle : SectionStyle)
  | table (payload : String)
  | unknown (tag : String)
  deriving DecidableEq, Repr

/-- One top-level structural element: its (possibly absent) start and end
indices and its variant payload. -/
structure StructuralElement where
  startIndex : Option Nat
  endIndex : Option Nat
  body : SEBody
  deriving DecidableEq, Repr

/-- The body object of the document JSON; its `content` array may be
absent. -/
structure GDocBody where
  content : Option (List StructuralElement)
  deriving DecidableEq, Repr

/-- The document JSON handed to the compiler: body (possibly absent),
inline-object map (opaque to the core, possibly absent), document style
(possibly absent). -/
structure GDoc where
  body : Option GDocBody
  inlineObjects : Option String
  documentStyle : Option DocStyle
  deriving DecidableEq, Repr

/-- Modelled from the spec: the external paragraph handler
(`handleParagraph` from `paragraphUpdates`, not under `src/`). Spec 6: it is
called with the element, the full element sequence, the current index, the
inline-object map, the element's start/end indices and the
`isLastContentOfTableCell` flag, and returns an ordered request list plus an
optional pending-newline style request. It is an external collaborator, so
the compiler is parameterized over it. -/
abbrev ParagraphHandler :=
  String → List StructuralElement → Nat → Option String →
    Option Nat → Option Nat → Bool → List GRequest × Option GRequest

/-- Modelled from the spec: the external table handler (`handleTable` from
`tableUpdates`, not under `src/`). Spec 6: it is called with the element,
its start/end indices and the inline-object map, and returns an ordered
request list. It is an external collaborator, so the compiler is
parameterized over it. -/
abbrev TableHandler :=
  String → Option Nat → Option Nat → Option String → List GRequest

/-- Modelled from the spec: `changePageDimensions` (from `pageUpdates`, not
under `src/`). Spec 4.1: a pure function turning the page-size attributes
into exactly one command; absent magnitudes are accepted and carried as
absent. -/
def changePageDimensions (height width : Option Magnitude) : GRequest :=
  .changePageSize height width

/-- Modelled from the spec: `changePageMargins` (from `pageUpdates`, not
under `src/`). Spec 4.1: a pure function turning the four margin attributes
into exactly one command. -/
def changePageMargins
    (marginTop marginBottom marginRight marginLeft : Option Magnitude) : GRequest :=
  .changePageMargins marginTop marginBottom marginRight marginLeft

/-- Modelled from the spec: `changePageOrientation` (from `pageUpdates`, not
under `src/`). Spec 4.1: a pure function turning the orientation flag into
exactly one command. -/
def changePageOrientation (flip : Option Bool) : GRequest :=
  .changePageOrientation flip

/-- The fixed pair `shrinkOriginalNewLine` from the source (lines 63-82):
shrink the document's pre-existing trailing newline to font size 1 and
near-zero spacing, over range 1..2 of the root segment. -/
def shrinkOriginalNewLine : List GRequest :=
  [ .updateTextStyle 1 "PT" "fontSize" ⟨1, some 2, ""⟩,
    .updateParagraphStyle (6 / 100) 0 0 "lineSpacing,spaceAbove,spaceBelow"
      ⟨1, some 2, ""⟩ ]

/-- The initial request list built at source lines 85-90: the two
newline-shrink requests, then the page-size, orientation and margin
requests derived from the document style. -/
def setupRequests (docStyle : Option DocStyle) : List GRequest :=
  shrinkOriginalNewLine ++
    [ changePageDimensions (docStyle.bind DocStyle.pageHeight)
        (docStyle.bind DocStyle.pageWidth),
      changePageOrientation (docStyle.bind DocStyle.flipPageOrientation),
      changePageMargins (docStyle.bind DocStyle.marginTop)
        (docStyle.bind DocStyle.marginBottom)
        (docStyle.bind DocStyle.marginRight)
        (docStyle.bind DocStyle.marginLeft) ]

/-- Embedding of `handleSectionBreak` (source lines 169-230). The local
`sectionBreakStyle` aliases the element's own `sectionStyle` object, so the
`delete sectionBreakStyle.sectionType` at line 185 mutates that object
before anything else reads it; in particular the read of
`sectionBreakElement.sectionStyle!.sectionType` at line 217 observes the
already-deleted key. The function returns the request list together with
the element's post-mutation section style. -/
def handleSectionBreak (sectionStyle : SectionStyle)
    (sectionBreakStartIndex sectionBreakEndIndex : Option Nat) :
    List GRequest × SectionStyle :=
  let startIndex := sectionBreakStartIndex.getD 0
  let endIndex := sectionBreakEndIndex
  let sectionBreakStyle := deleteField "sectionType" sectionStyle
  let updateSectionBreakRequest :=
    GRequest.updateSectionStyle sectionBreakStyle ⟨startIndex, endIndex, ""⟩
      (getStylingFieldMask sectionBreakStyle)
  if startIndex = 0 then
    ([ .insertSectionBreak (some "CONTINUOUS") (.endOfSegment ""),
       updateSectionBreakRequest ], sectionBreakStyle)
  else
    ([ .insertSectionBreak
         (if getField sectionBreakStyle "sectionType" = some "SECTION_TYPE_UNSPECIFIED"
           then some "CONTINUOUS"
           else getField sectionBreakStyle "sectionType")
         (.location "" startIndex),
       updateSectionBreakRequest ], sectionBreakStyle)

/-- One iteration of the `for` loop at source lines 94-149: classify
`content[i]` by variant and dispatch. A paragraph's handler result is
appended and its pending-newline style overwrites the slot
(lines 116-117); a section break appends `handleSectionBreak`'s requests
(and the element list records the style mutation); a table appends the
table handler's requests and then, if the pending-newline slot is occupied,
appends its content and clears the slot (lines 142-145); any other variant
falls through the `switch` untouched. Returns the request list, the
pending-newline slot and the element list after the iteration. -/
def compileStep (hp : ParagraphHandler) (ht : TableHandler) (io : Option String)
    (content : List StructuralElement) (i : Nat)
    (requests : List GRequest) (pending : Option GRequest) :
    List GRequest × Option GRequest × List StructuralElement :=
  match content[i]? with
  | none => (requests, pending, content)
  | some structuralElement =>
    match structuralElement.body with
    | .paragraph p =>
      let res := hp p content i io structuralElement.startIndex
        structuralElement.endIndex false
      (requests ++ res.1, res.2, content)
    | .sectionBreak sectionStyle =>
      let res := handleSectionBreak sectionStyle structuralElement.startIndex
        structuralElement.endIndex
      (requests ++ res.1, pending,
        content.set i { structuralElement with body := .sectionBreak res.2 })
    | .table t =>
      let tableInsertionRequest :=
        ht t structuralElement.startIndex structuralElement.endIndex io
      match pending with
      | some pendingCmd =>
        (requests ++ tableInsertionRequest ++ [pendingCmd], none, content)
      | none => (requests ++ tableInsertionRequest, none, content)
    | .unknown _ => (requests, pending, content)

/-- The `for` loop at source lines 94-149, iterating `compileStep` with `i`
running from `0`. The first argument is the number of remaining iterations;
the loop is entered with `content.length`, which `compileStep` preserves
(`compileStep_content_length`), so this equals the source's
`i < content.length` bound. -/
def compileLoop (hp : ParagraphHandler) (ht : TableHandler) (io : Option String) :
    Nat → Nat → List StructuralElement → List GRequest → Option GRequest →
    List GRequest × Option GRequest × List StructuralElement
  | 0, _, content, requests, pending => (requests, pending, content)
  | fuel + 1, i, content, requests, pending =>
    let res := compileStep hp ht io content i requests pending
    compileLoop hp ht io fuel (i + 1) res.2.2 res.1 res.2.1

/-- The guarded body of `jsonToBatchUpdateRequest` (source lines 26-151),
as an `Except`: an absent `body` makes `docJSON.body!.content` throw, an
absent `content` makes `(content as []).length` throw, and otherwise the
loop runs over `content` starting from the setup requests. On success the
result carries the final request list and the post-call state of the
caller's document (its element list after any section-style mutations). -/
def jsonToBatchUpdateRequestBody (hp : ParagraphHandler) (ht : TableHandler)
    (docJSON : GDoc) : Except String (List GRequest × GDoc) :=
  match docJSON.body with
  | none => .error "TypeError: cannot read content of undefined"
  | some body =>
    match body.content with
    | none => .error "TypeError: cannot read length of undefined"
    | some content =>
      let requests := setupRequests docJSON.documentStyle
      let res := compileLoop hp ht docJSON.inlineObjects content.length 0
        content requests none
      .ok (res.1, { docJSON with body := some { content := some res.2.2 } })

/-- The exported `jsonToBatchUpdateRequest` (source lines 25-159) with its
`try`/`catch` fault boundary. It returns the request list (`none` when the
body threw and the function fell through to an implicit `undefined`
return), the number of `console.error` calls (each caught fault is an
`Error`, so it is logged exactly once), and the post-call state of the
caller's document. -/
def jsonToBatchUpdateRequest (hp : ParagraphHandler) (ht : TableHandler)
    (docJSON : GDoc) : Option (List GRequest) × Nat × GDoc :=
  match jsonToBatchUpdateRequestBody hp ht docJSON with
  | .ok (requests, docAfter) => (some requests, 0, docAfter)
  | .error _ => (none, 1, docJSON)

/-- Constant paragraph handler used by the concrete witnesses: it returns
one request and a pending-newline style request. -/
def hpPending : ParagraphHandler :=
  fun _ _ _ _ _ _ _ => ([.other "para"], some (.other "newline"))

/-- Paragraph handler used by the concrete witnesses that dispatches on the
paragraph payload: paragraph "P1" gets a pending-newline style request, any
other paragraph gets none. -/
def hpByPayload : ParagraphHandler := fun p _ _ _ _ _ _ =>
  if p = "P1" then ([.other "c1"], some (.other "pend1")) else ([.other "c2"], none)

/-- Constant table handler used by the concrete witnesses: it returns one
request. -/
def htOne : TableHandler := fun _ _ _ _ => [.other "table"]

/-- One `compileStep` keeps the element list's length (only `List.set` ever
touches it), so entering `compileLoop` with `content.length` remaining
iterations is the same bound as the source loop's `i < content.length`. -/
theorem compileStep_content_length (hp : ParagraphHandler) (ht : TableHandler)
    (io : Option String) (content : List StructuralElement) (i : Nat)
    (requests : List GRequest) (pending : Option GRequest) :
    (compileStep hp ht io content i requests pending).2.2.length = content.length := by
  unfold compileStep
  cases h : content[i]? with
  | none => rfl
  | some se =>
    rcases se with ⟨si, ei, body⟩
    cases body with
    | paragraph p => rfl
    | sectionBreak s => simp
    | table t => cases pending <;> rfl
    | unknown tag => rfl

/-- One `compileStep` only ever appends to the accumulated request list
(the source only calls `requests.push`). -/
theorem compileStep_requests_append (hp : ParagraphHandler) (ht : TableHandler)
    (io : Option String) (content : List StructuralElement) (i : Nat)
    (requests : List GRequest) (pending : Option GRequest) :
    ∃ s, (compileStep hp ht io content i requests pending).1 = requests ++ s := by
  unfold compileStep
  cases h : content[i]? with
  | none => exact ⟨[], by simp⟩
  | some se =>
    rcases se with ⟨si, ei, body⟩
    cases body with
    | paragraph p => exact ⟨_, rfl⟩
    | sectionBreak s => exact ⟨_, rfl⟩
    | table t =>
      cases pending with
      | some c => exact ⟨ht t si ei io ++ [c], by simp⟩
      | none => exact ⟨_, rfl⟩
    | unknown tag => exact ⟨[], by simp⟩

/-- The whole traversal only ever appends to the request list it starts
from, so whatever the loop is seeded with stays at the front of the
output. -/
theorem compileLoop_requests_append (hp : ParagraphHandler) (ht : TableHandler)
    (io : Option String) :
    ∀ (fuel i : Nat) (content : List StructuralElement) (requests : List GRequest)
      (pending : Option GRequest),
      ∃ s, (compileLoop hp ht io fuel i content requests pending).1 = requests ++ s := by
  intro fuel
  induction fuel with
  | zero => intro i content requests pending; exact ⟨[], by simp [compileLoop]⟩
  | succ n ih =>
    intro i content requests pending
    obtain ⟨s1, hs1⟩ := compileStep_requests_append hp ht io content i requests pending
    obtain ⟨s2, hs2⟩ := ih (i + 1) (compileStep hp ht io content i requests pending).2.2
      (compileStep hp ht io content i requests pending).1
      (compileStep hp ht io content i requests pending).2.1
    exact ⟨s1 ++ s2, by rw [compileLoop]; rw [hs2, hs1, List.append_assoc]⟩

/-- C1, counterexample. The claim says a `SectionBreak` with non-zero start
index and `sectionType = "SECTION_TYPE_UNSPECIFIED"` gets its insertion
type normalized to `"CONTINUOUS"`. On the concrete element with start
index 5, end index 6 and section style carrying exactly that type, the
emitted `insertSectionBreak` carries type `none` (JavaScript `undefined`):
the `delete` of `sectionType` at source line 185 runs on the aliased style
object before the normalization check at line 217 reads it, so the check
compares `undefined` with `"SECTION_TYPE_UNSPECIFIED"` and passes the
deleted (absent) value through. -/
theorem handleSectionBreak_unspecified_nonzero_counterexample :
    (handleSectionBreak [("sectionType", "SECTION_TYPE_UNSPECIFIED")] (some 5) (some 6)).1 =
      [ .insertSectionBreak none (.location "" 5),
        .updateSectionStyle [] ⟨5, some 6, ""⟩ "" ] := by decide

/-- C2, counterexample. The claim says compilation never mutates the source
document, including every `SectionBreak` element's `sectionStyle` object.
On a document whose single element is a `SectionBreak` with
`sectionType = "NEXT_PAGE"` in its style, the post-call state of the
document differs from the input: `handleSectionBreak` deletes `sectionType`
from the style object it was handed, which aliases the element's own
`sectionStyle` (source line 185). -/
theorem jsonToBatchUpdateRequest_mutates_sectionStyle :
    (jsonToBatchUpdateRequest (fun _ _ _ _ _ _ _ => ([], none)) (fun _ _ _ _ => [])
        ⟨some ⟨some [⟨some 5, some 6, .sectionBreak [("sectionType", "NEXT_PAGE")]⟩]⟩,
          none, none⟩).2.2 ≠
      ⟨some ⟨some [⟨some 5, some 6, .sectionBreak [("sectionType", "NEXT_PAGE")]⟩]⟩,
        none, none⟩ := by decide

/-- C3. For a sequence of the shape paragraph-then-table where the
paragraph handler reports a pending-newline style request, the compiled
output is the setup requests, then the paragraph handler's requests, then
every request of the table handler, and only then the pending-newline
request; and the pending-newline slot is empty after the table's
iteration. -/
theorem paragraph_then_table_pending_order (hp : ParagraphHandler) (ht : TableHandler)
    (io : Option String) (ds : Option DocStyle) (ps pe ts te : Option Nat)
    (pp tp : String) (pcmds tcmds : List GRequest) (pend : GRequest)
    (hP : hp pp [⟨ps, pe, .paragraph pp⟩, ⟨ts, te, .table tp⟩] 0 io ps pe false
        = (pcmds, some pend))
    (hT : ht tp ts te io = tcmds) :
    jsonToBatchUpdateRequestBody hp ht
        ⟨some ⟨some [⟨ps, pe, .paragraph pp⟩, ⟨ts, te, .table tp⟩]⟩, io, ds⟩ =
      .ok (setupRequests ds ++ pcmds ++ tcmds ++ [pend],
        ⟨some ⟨some [⟨ps, pe, .paragraph pp⟩, ⟨ts, te, .table tp⟩]⟩, io, ds⟩) ∧
    (compileLoop hp ht io 2 0 [⟨ps, pe, .paragraph pp⟩, ⟨ts, te, .table tp⟩]
        (setupRequests ds) none).2.1 = none := by
  constructor
  · simp [jsonToBatchUpdateRequestBody, compileLoop, compileStep, hP, hT]
  · simp [compileLoop, compileStep, hP, hT]

/-- C3, witness: the theorem at a concrete paragraph-table document with
the constant witness handlers. -/
theorem paragraph_then_table_pending_order_witness :
    jsonToBatchUpdateRequestBody hpPending htOne
        ⟨some ⟨some [⟨some 1, some 3, .paragraph "P"⟩, ⟨some 3, some 8, .table "T"⟩]⟩,
          none, none⟩ =
      .ok (setupRequests none ++ [.other "para"] ++ [.other "table"] ++ [.other "newline"],
        ⟨some ⟨some [⟨some 1, some 3, .paragraph "P"⟩, ⟨some 3, some 8, .table "T"⟩]⟩,
          none, none⟩) ∧
    (compileLoop hpPending htOne none 2 0
        [⟨some 1, some 3, .paragraph "P"⟩, ⟨some 3, some 8, .table "T"⟩]
        (setupRequests none) none).2.1 = none :=
  paragraph_then_table_pending_order hpPending htOne none none (some 1) (some 3)
    (some 3) (some 8) "P" "T" [.other "para"] [.other "table"] (.other "newline") rfl rfl

/-- C4. A `SectionBreak` with absent start index resolves it to `0` and
emits, in order, an `insertSectionBreak` of type `"CONTINUOUS"` addressed
by `endOfSegmentLocation` on the root segment, then an
`updateSectionStyle` over `Range` 0..endIndex of the root segment whose
style has the `sectionType` key stripped; since the field mask is the
comma-join of exactly the style's remaining keys (`getStylingFieldMask`),
`sectionType` is never among the masked fields. -/
theorem handleSectionBreak_absent_start (style : SectionStyle) (endIdx : Option Nat) :
    handleSectionBreak style none endIdx =
      ([ .insertSectionBreak (some "CONTINUOUS") (.endOfSegment ""),
         .updateSectionStyle (deleteField "sectionType" style) ⟨0, endIdx, ""⟩
           (getStylingFieldMask (deleteField "sectionType" style)) ],
       deleteField "sectionType" style)
    ∧ "sectionType" ∉ (deleteField "sectionType" style).map Prod.fst := by
  constructor
  · simp [handleSectionBreak]
  · simp [deleteField]

/-- C5. Whenever the guarded compilation body faults (for example because
the document's body or its content sequence is absent), the exported
function returns no request list at all — not a partial one — together
with exactly one logged fault, and the document is left as it was. -/
theorem jsonToBatchUpdateRequest_fault_no_result (hp : ParagraphHandler)
    (ht : TableHandler) (docJSON : GDoc)
    (h : ∃ e, jsonToBatchUpdateRequestBody hp ht docJSON = .error e) :
    jsonToBatchUpdateRequest hp ht docJSON = (none, 1, docJSON) := by
  obtain ⟨e, he⟩ := h
  unfold jsonToBatchUpdateRequest
  rw [he]

/-- C5, witness: a document whose body is present but whose content
sequence is absent yields no result and one logged fault. -/
theorem jsonToBatchUpdateRequest_fault_no_result_witness :
    jsonToBatchUpdateRequest hpPending htOne ⟨some ⟨none⟩, none, none⟩ =
      (none, 1, ⟨some ⟨none⟩, none, none⟩) :=
  jsonToBatchUpdateRequest_fault_no_result hpPending htOne _
    ⟨"TypeError: cannot read length of undefined", rfl⟩

/-- C6. Every successful compilation's output starts with the two
newline-shrink requests followed by the page-size, orientation and margin
requests, in that fixed order (`setupRequests`), before anything emitted
for a structural element; and when the element sequence is empty the
output is exactly those five requests. -/
theorem setup_requests_first (hp : ParagraphHandler) (ht : TableHandler)
    (io : Option String) (ds : Option DocStyle) (content : List StructuralElement)
    (requests : List GRequest) (docAfter : GDoc)
    (h : jsonToBatchUpdateRequestBody hp ht ⟨some ⟨some content⟩, io, ds⟩
        = .ok (requests, docAfter)) :
    (∃ rest, requests = setupRequests ds ++ rest) ∧
      (content = [] → requests = setupRequests ds) := by
  unfold jsonToBatchUpdateRequestBody at h
  simp only [Except.ok.injEq, Prod.mk.injEq] at h
  obtain ⟨hreq, hdoc⟩ := h
  constructor
  · obtain ⟨s, hs⟩ := compileLoop_requests_append hp ht io content.length 0 content
      (setupRequests ds) none
    exact ⟨s, by rw [← hreq, hs]⟩
  · rintro rfl
    rw [← hreq]
    simp [compileLoop]

/-- C6, witness: the theorem at a document with an empty element
sequence. -/
theorem setup_requests_first_witness :
    (∃ rest, setupRequests none = setupRequests (none : Option DocStyle) ++ rest) ∧
      (([] : List StructuralElement) = [] → setupRequests none = setupRequests none) :=
  setup_requests_first hpPending htOne none none [] (setupRequests none)
    ⟨some ⟨some []⟩, none, none⟩ rfl

/-- C7. Two consecutive table elements with no paragraph in between: the
first table's iteration appends the table handler's requests and drains
the pending-newline slot at most once (`pend.toList`), after which the
slot is `none`, so the second table's iteration appends exactly the table
handler's requests and nothing more — no pending-newline request is ever
emitted twice. -/
theorem consecutive_tables_no_duplicate (hp : ParagraphHandler) (ht : TableHandler)
    (io : Option String) (content : List StructuralElement) (i : Nat)
    (requests : List GRequest) (pend : Option GRequest)
    (si1 ei1 si2 ei2 : Option Nat) (t1 t2 : String)
    (h1 : content[i]? = some ⟨si1, ei1, .table t1⟩)
    (h2 : content[i + 1]? = some ⟨si2, ei2, .table t2⟩) :
    compileStep hp ht io
        (compileStep hp ht io content i requests pend).2.2 (i + 1)
        (compileStep hp ht io content i requests pend).1
        (compileStep hp ht io content i requests pend).2.1 =
      (requests ++ ht t1 si1 ei1 io ++ pend.toList ++ ht t2 si2 ei2 io, none, content) := by
  cases pend <;> simp [compileStep, h1, h2]

/-- C7, witness: two concrete consecutive tables with an occupied
pending-newline slot; the pending request is appended once, after the
first table. -/
theorem consecutive_tables_no_duplicate_witness :
    compileStep hpPending htOne none
        (compileStep hpPending htOne none
          [⟨some 1, some 6, .table "T1"⟩, ⟨some 6, some 11, .table "T2"⟩] 0
          [] (some (.other "newline"))).2.2 1
        (compileStep hpPending htOne none
          [⟨some 1, some 6, .table "T1"⟩, ⟨some 6, some 11, .table "T2"⟩] 0
          [] (some (.other "newline"))).1
        (compileStep hpPending htOne none
          [⟨some 1, some 6, .table "T1"⟩, ⟨some 6, some 11, .table "T2"⟩] 0
          [] (some (.other "newline"))).2.1 =
      ([] ++ htOne "T1" (some 1) (some 6) none ++ (some (GRequest.other "newline")).toList
          ++ htOne "T2" (some 6) (some 11) none,
        none, [⟨some 1, some 6, .table "T1"⟩, ⟨some 6, some 11, .table "T2"⟩]) :=
  consecutive_tables_no_duplicate hpPending htOne none
    [⟨some 1, some 6, .table "T1"⟩, ⟨some 6, some 11, .table "T2"⟩] 0
    [] (some (.other "newline")) (some 1) (some 6) (some 6) (some 11) "T1" "T2" rfl rfl

/-- C8. An element whose variant is none of paragraph, section break or
table falls through the dispatch untouched: the iteration changes neither
the request list, nor the pending-newline slot, nor the element list, and
raises no fault. -/
theorem unknown_element_skipped (hp : ParagraphHandler) (ht : TableHandler)
    (io : Option String) (content : List StructuralElement) (i : Nat)
    (requests : List GRequest) (pending : Option GRequest)
    (si ei : Option Nat) (tag : String)
    (h : content[i]? = some ⟨si, ei, .unknown tag⟩) :
    compileStep hp ht io content i requests pending = (requests, pending, content) := by
  simp [compileStep, h]

/-- C8, witness: a concrete unclassified element is skipped. -/
theorem unknown_element_skipped_witness :
    compileStep hpPending htOne none [⟨some 1, some 2, .unknown "tableOfContents"⟩] 0
        (setupRequests none) none =
      (setupRequests none, none, [⟨some 1, some 2, .unknown "tableOfContents"⟩]) :=
  unknown_element_skipped hpPending htOne none
    [⟨some 1, some 2, .unknown "tableOfContents"⟩] 0 (setupRequests none) none
    (some 1) (some 2) "tableOfContents" rfl

/-- C9. When the sequence ends right after a paragraph whose handler
reported a pending-newline style request, the compilation still succeeds —
it returns the setup requests followed by the paragraph handler's requests
and logs nothing — while the loop ends with the slot still holding the
pending request: the request was never appended, so it is silently absent
from the returned list, and no fault is raised about it. -/
theorem trailing_pending_dropped (hp : ParagraphHandler) (ht : TableHandler)
    (io : Option String) (ds : Option DocStyle) (ps pe : Option Nat) (pp : String)
    (pcmds : List GRequest) (pend : GRequest)
    (hP : hp pp [⟨ps, pe, .paragraph pp⟩] 0 io ps pe false = (pcmds, some pend)) :
    jsonToBatchUpdateRequest hp ht ⟨some ⟨some [⟨ps, pe, .paragraph pp⟩]⟩, io, ds⟩ =
      (some (setupRequests ds ++ pcmds), 0,
        ⟨some ⟨some [⟨ps, pe, .paragraph pp⟩]⟩, io, ds⟩) ∧
    (compileLoop hp ht io 1 0 [⟨ps, pe, .paragraph pp⟩] (setupRequests ds) none).2.1
      = some pend := by
  constructor
  · simp [jsonToBatchUpdateRequest, jsonToBatchUpdateRequestBody, compileLoop,
      compileStep, hP]
  · simp [compileLoop, compileStep, hP]

/-- C9, witness: the theorem at a concrete single-paragraph document whose
handler reports a pending-newline request. -/
theorem trailing_pending_dropped_witness :
    jsonToBatchUpdateRequest hpPending htOne
        ⟨some ⟨some [⟨some 1, some 3, .paragraph "P"⟩]⟩, none, none⟩ =
      (some (setupRequests none ++ [.other "para"]), 0,
        ⟨some ⟨some [⟨some 1, some 3, .paragraph "P"⟩]⟩, none, none⟩) ∧
    (compileLoop hpPending htOne none 1 0 [⟨some 1, some 3, .paragraph "P"⟩]
        (setupRequests none) none).2.1 = some (.other "newline") :=
  trailing_pending_dropped hpPending htOne none none (some 1) (some 3) "P"
    [.other "para"] (.other "newline") rfl

/-- C10. Each paragraph overwrites the pending-newline slot with its own
handler result, so in a paragraph-paragraph-table sequence where the first
paragraph reports a pending-newline request and the second reports none,
the output is exactly the setup requests and the three handlers' request
lists — the first paragraph's pending request is not in it (given that it
does not coincide with any request those lists happen to contain). -/
theorem pending_overwritten_by_next_paragraph (hp : ParagraphHandler) (ht : TableHandler)
    (io : Option String) (ds : Option DocStyle) (s1 e1 s2 e2 ts te : Option Nat)
    (p1 p2 tp : String) (c1 c2 tcmds : List GRequest) (pend1 : GRequest)
    (hP1 : hp p1 [⟨s1, e1, .paragraph p1⟩, ⟨s2, e2, .paragraph p2⟩, ⟨ts, te, .table tp⟩]
        0 io s1 e1 false = (c1, some pend1))
    (hP2 : hp p2 [⟨s1, e1, .paragraph p1⟩, ⟨s2, e2, .paragraph p2⟩, ⟨ts, te, .table tp⟩]
        1 io s2 e2 false = (c2, none))
    (hT : ht tp ts te io = tcmds)
    (hn1 : pend1 ∉ setupRequests ds) (hn2 : pend1 ∉ c1) (hn3 : pend1 ∉ c2)
    (hn4 : pend1 ∉ tcmds) :
    jsonToBatchUpdateRequestBody hp ht
        ⟨some ⟨some [⟨s1, e1, .paragraph p1⟩, ⟨s2, e2, .paragraph p2⟩,
          ⟨ts, te, .table tp⟩]⟩, io, ds⟩ =
      .ok (setupRequests ds ++ c1 ++ c2 ++ tcmds,
        ⟨some ⟨some [⟨s1, e1, .paragraph p1⟩, ⟨s2, e2, .paragraph p2⟩,
          ⟨ts, te, .table tp⟩]⟩, io, ds⟩) ∧
    pend1 ∉ setupRequests ds ++ c1 ++ c2 ++ tcmds := by
  constructor
  · simp [jsonToBatchUpdateRequestBody, compileLoop, compileStep, hP1, hP2, hT]
  · simp [hn1, hn2, hn3, hn4]

/-- C10, witness: the theorem at a concrete paragraph-paragraph-table
document with the payload-dispatching witness handler. -/
theorem pending_overwritten_by_next_paragraph_witness :
    jsonToBatchUpdateRequestBody hpByPayload htOne
        ⟨some ⟨some [⟨some 1, some 3, .paragraph "P1"⟩, ⟨some 3, some 5, .paragraph "P2"⟩,
          ⟨some 5, some 10, .table "T"⟩]⟩, none, none⟩ =
      .ok (setupRequests none ++ [.other "c1"] ++ [.other "c2"] ++ [.other "table"],
        ⟨some ⟨some [⟨some 1, some 3, .paragraph "P1"⟩, ⟨some 3, some 5, .paragraph "P2"⟩,
          ⟨some 5, some 10, .table "T"⟩]⟩, none, none⟩) ∧
    GRequest.other "pend1" ∉
      setupRequests none ++ [.other "c1"] ++ [.other "c2"] ++ [.other "table"] :=
  pending_overwritten_by_next_paragraph hpByPayload htOne none none
    (some 1) (some 3) (some 3) (some 5) (some 5) (some 10) "P1" "P2" "T"
    [.other "c1"] [.other "c2"] [.other "table"] (.other "pend1")
    (by decide) (by decide) (by decide) (by decide) (by decide) (by decide) (by decide)
